import Mathlib

/-!
Verification of the dispersy repository slice: a shallow embedding of
`src/distribution.py`, `src/tool/tracker.py` and `src/debugcommunity.py`,
with theorems settling the frozen claims about them.
-/

namespace Dispersy

/-! ## Embedding of `src/distribution.py` -/

/-- Meta state of `GlobalTimePruning`: the two thresholds stored by
`GlobalTimePruning.__init__` (`self._inactive_threshold`, `self._prune_threshold`).
The constructor asserts `0 < inactive < pruned`; theorems carry that as a
hypothesis.  Thresholds are Python ints, embedded as `Int`. -/
structure GlobalTimePruningMeta where
  inactive_threshold : Int
  prune_threshold : Int
deriving DecidableEq, Repr

/-- `GlobalTimePruning.Implementation.is_active`:
`self._distribution.community.global_time - self._distribution.global_time < self._meta.inactive_threshold`.
Global times are unsigned logical clocks (`Nat`); the Python subtraction of ints
is embedded as subtraction in `Int`. -/
def GlobalTimePruningMeta.is_active (m : GlobalTimePruningMeta)
    (communityGlobalTime msgGlobalTime : Nat) : Bool :=
  decide ((communityGlobalTime : Int) - (msgGlobalTime : Int) < m.inactive_threshold)

/-- `GlobalTimePruning.Implementation.is_inactive`:
`inactive_threshold <= community.global_time - global_time < prune_threshold`. -/
def GlobalTimePruningMeta.is_inactive (m : GlobalTimePruningMeta)
    (communityGlobalTime msgGlobalTime : Nat) : Bool :=
  decide (m.inactive_threshold ≤ (communityGlobalTime : Int) - (msgGlobalTime : Int) ∧
    (communityGlobalTime : Int) - (msgGlobalTime : Int) < m.prune_threshold)

/-- `GlobalTimePruning.Implementation.is_pruned`:
`prune_threshold <= community.global_time - global_time`. -/
def GlobalTimePruningMeta.is_pruned (m : GlobalTimePruningMeta)
    (communityGlobalTime msgGlobalTime : Nat) : Bool :=
  decide (m.prune_threshold ≤ (communityGlobalTime : Int) - (msgGlobalTime : Int))

/-- `Pruning.Implementation.get_state`: tries `is_active`, then `is_inactive`,
then `is_pruned`; raises `RuntimeError` (embedded as `none`) when none holds. -/
def GlobalTimePruningMeta.get_state (m : GlobalTimePruningMeta)
    (communityGlobalTime msgGlobalTime : Nat) : Option String :=
  if m.is_active communityGlobalTime msgGlobalTime then some "active"
  else if m.is_inactive communityGlobalTime msgGlobalTime then some "inactive"
  else if m.is_pruned communityGlobalTime msgGlobalTime then some "pruned"
  else none

/-- `FullSyncDistribution.claim_sequence_number` acting on the meta's
`_current_sequence_number`: increments the counter and returns it
(return value, new counter). -/
def claim_sequence_number (current : Nat) : Nat × Nat :=
  (current + 1, current + 1)

/-- `FullSyncDistribution.setup` with `enable_sequence_number`: initializes
`_current_sequence_number` to `SELECT COUNT(1) FROM sync WHERE member = ? AND
meta_message = ?`, i.e. to the number of rows stored for `(my_member, meta)`. -/
def setup_sequence_number (storedRowCount : Nat) : Nat :=
  storedRowCount

/-- The values returned by `n` successive `claim_sequence_number` calls
starting from counter state `s`. -/
def claim_sequence_list (s : Nat) : Nat → List Nat
  | 0 => []
  | n + 1 =>
    let r := claim_sequence_number s
    r.1 :: claim_sequence_list r.2 n

/-- Outcome of constructing a `FullSyncDistribution.Implementation`: the Python
constructor raises (the spec's `PolicyMismatch`) when the sequence-number
assertion fails, and `Distribution.Implementation.__init__` asserts
`global_time > 0`. -/
inductive ImplError
  | policyMismatch
  | invalidGlobalTime
deriving DecidableEq, Repr

/-- The per-message state carried by a `FullSyncDistribution.Implementation`. -/
structure FullSyncImpl where
  global_time : Nat
  sequence_number : Nat
deriving DecidableEq, Repr

/-- `FullSyncDistribution.Implementation.__init__`: asserts
`(meta._enable_sequence_number and sequence_number > 0) or
 (not meta._enable_sequence_number and sequence_number == 0)`,
then the superclass chain asserts `global_time > 0`; on success the
implementation stores the supplied `sequence_number`. -/
def FullSyncImpl.make (enable_sequence_number : Bool)
    (global_time sequence_number : Nat) : Except ImplError FullSyncImpl :=
  if (enable_sequence_number && decide (0 < sequence_number)) ||
      (!enable_sequence_number && decide (sequence_number = 0)) then
    if 0 < global_time then
      Except.ok ⟨global_time, sequence_number⟩
    else
      Except.error ImplError.invalidGlobalTime
  else
    Except.error ImplError.policyMismatch

/-! ## Embedding of `src/tool/tracker.py`: strike-based community unload -/

/-- A candidate known to the dispersy instance.  `candidate.is_active(community,
now)` is embedded by listing the community ids for which this candidate is
active at the moment the unload loop wakes. -/
structure Candidate where
  activeFor : List Nat
deriving DecidableEq, Repr

/-- The per-community state relevant to the tracker's strike rule.
`hardKilled = true` selects the `TrackerHardKilledCommunity` dynamic type,
`false` the live `TrackerCommunity`; both store a `_strikes` counter
initialized to 0 and are keyed by their community id. -/
structure TrackerCommunityState where
  hardKilled : Bool
  cid : Nat
  strikes : Nat
deriving DecidableEq, Repr

/-- `update_strikes(now)` (dynamic dispatch on the community's type).
`TrackerHardKilledCommunity.update_strikes` unconditionally executes
`self._strikes += 1; return self._strikes`.  `TrackerCommunity.update_strikes`
scans `self._dispersy.candidates`: on the first candidate with
`candidate.is_active(self, now)` it sets `_strikes = 0` and breaks; the
`for`-`else` otherwise increments; it returns `self._strikes`.
Result: (returned strike count, updated community state). -/
def update_strikes (cands : List Candidate) (c : TrackerCommunityState) :
    Nat × TrackerCommunityState :=
  if c.hardKilled then
    (c.strikes + 1, { c with strikes := c.strikes + 1 })
  else if cands.any (fun cand => c.cid ∈ cand.activeFor) then
    (0, { c with strikes := 0 })
  else
    (c.strikes + 1, { c with strikes := c.strikes + 1 })

/-- The local `is_active(community, now)` of
`TrackerDispersy._unload_communities`: check 1 returns true when
`community.update_strikes(now) < 3`; check 2 returns true when some meta in
`self._batch_cache` has `meta.community == community` (the batch cache is
embedded as the list of community ids its cached metas belong to); otherwise
the community is inactive.  Result: (judged active?, community state after the
`update_strikes` side effect). -/
def loop_is_active (cands : List Candidate) (batchCache : List Nat)
    (c : TrackerCommunityState) : Bool × TrackerCommunityState :=
  let r := update_strikes cands c
  if r.1 < 3 then (true, r.2)
  else if batchCache.any (fun metaCid => metaCid = c.cid) then (true, r.2)
  else (false, r.2)

/-- One wake of the `_unload_communities` loop body (after `yield 180.0`):
`inactive = [community for community in self._communities.itervalues() if not
is_active(community, now)]`, then every community in `inactive` is unloaded.
Result: (the unloaded communities, the communities that stay loaded), each with
the strike counter as `update_strikes` left it. -/
def unload_communities_interval (cands : List Candidate) (batchCache : List Nat)
    (communities : List TrackerCommunityState) :
    List TrackerCommunityState × List TrackerCommunityState :=
  let checked := communities.map (loop_is_active cands batchCache)
  (checked.filterMap (fun p => if p.1 then none else some p.2),
   checked.filterMap (fun p => if p.1 then some p.2 else none))

/-! ## Embedding of `TrackerDispersy._convert_packets_into_batch` -/

/-- The inner generator `filter_non_bootstrap_nodes`: for each
`(candidate, packet)` pair it computes `cid = packet[2:22]` and drops the pair
when `not cid in self._communities and False` (the hard-coded `and False` of
the source); otherwise it yields the pair.  Packets are byte lists, candidates
are identified by a `Nat`, and `self._communities` is the list of loaded
community ids. -/
def filter_non_bootstrap_nodes (communities : List (List Nat))
    (packets : List (Nat × List Nat)) : List (Nat × List Nat) :=
  packets.filter (fun cp =>
    !(!(decide ((cp.2.drop 2).take 20 ∈ communities)) && false))

/-- `TrackerDispersy._convert_packets_into_batch`: runs the filter, then calls
the parent implementation on the surviving pairs when any survive, and returns
the empty batch otherwise.  The parent `Dispersy._convert_packets_into_batch`
is outside this slice and is passed as a function. -/
def convert_packets_into_batch {β : Type}
    (parent : List (Nat × List Nat) → List β)
    (communities : List (List Nat)) (packets : List (Nat × List Nat)) :
    List β :=
  let remaining := filter_non_bootstrap_nodes communities packets
  if remaining.isEmpty then [] else parent remaining

/-! ## Embedding of `TrackerDispersy._load_persistent_storage` -/

/-- Value of a hex digit, as Python's `str.decode("HEX")` accepts it. -/
def hexDigitValue (c : Char) : Option Nat :=
  if '0' ≤ c ∧ c ≤ '9' then some (c.toNat - '0'.toNat)
  else if 'a' ≤ c ∧ c ≤ 'f' then some (c.toNat - 'a'.toNat + 10)
  else if 'A' ≤ c ∧ c ≤ 'F' then some (c.toNat - 'A'.toNat + 10)
  else none

/-- Python 2 `packet.decode("HEX")`: two hex digits per byte; fails
(`TypeError`) on a non-hex digit or an odd-length string. -/
def hexDecode : List Char → Option (List Nat)
  | [] => some []
  | [_] => none
  | a :: b :: rest =>
    match hexDigitValue a, hexDigitValue b, hexDecode rest with
    | some hi, some lo, some r => some ((16 * hi + lo) :: r)
    | _, _, _ => none

/-- Python 2 whitespace, as `str.split()` with no argument treats it. -/
def isPythonSpace (c : Char) : Bool :=
  c = ' ' || c = '\t' || c = '\n' || c = '\r' || c = '\x0b' || c = '\x0c'

/-- Accumulator loop for `str.split()`: `acc` holds the reversed characters of
the field being read. -/
def pythonSplitAux : List Char → List Char → List (List Char)
  | [], acc => if acc.isEmpty then [] else [acc.reverse]
  | c :: rest, acc =>
    if isPythonSpace c then
      if acc.isEmpty then pythonSplitAux rest []
      else acc.reverse :: pythonSplitAux rest []
    else pythonSplitAux rest (c :: acc)

/-- Python 2 `line.split()`: split on runs of whitespace, no empty fields.
Lines are embedded as character lists. -/
def pythonSplit (line : List Char) : List (List Char) :=
  pythonSplitAux line []

/-- Python 2 `line.startswith("#")`. -/
def startsWithHash : List Char → Bool
  | [] => false
  | c :: _ => c = '#'

/-- An exception escaping the packet list comprehension of
`_load_persistent_storage` (only `IOError` is caught there): `valueError` when
unpacking `_, packet = line.split()` fails because the line does not have
exactly two fields, `typeError` when `packet.decode("HEX")` fails. -/
inductive LoadError
  | valueError
  | typeError
deriving DecidableEq, Repr

/-- The list comprehension of `_load_persistent_storage`:
`[packet.decode("HEX") for _, packet in (line.split() for line in file if not
line.startswith("#"))]`.  Lines starting with `#` are skipped; each remaining
line is whitespace-split, must have exactly two fields, and its second field is
hex-decoded.  The first failing line aborts the whole comprehension. -/
def parse_persistent_storage : List (List Char) → Except LoadError (List (List Nat))
  | [] => Except.ok []
  | line :: rest =>
    if startsWithHash line then parse_persistent_storage rest
    else
      match pythonSplit line with
      | [_, hexPacket] =>
        match hexDecode hexPacket with
        | some packet => (parse_persistent_storage rest).map (fun ps => packet :: ps)
        | none => Except.error LoadError.typeError
      | _ => Except.error LoadError.valueError

/-- What a single non-comment line contributes to the comprehension, used to
state the filter/map characterization of `parse_persistent_storage`. -/
def decode_storage_line (line : List Char) : Except LoadError (List Nat) :=
  match pythonSplit line with
  | [_, hexPacket] =>
    match hexDecode hexPacket with
    | some packet => Except.ok packet
    | none => Except.error LoadError.typeError
  | _ => Except.error LoadError.valueError

/-- `TrackerDispersy._load_persistent_storage`: a missing file (`IOError`,
embedded as `none`) is swallowed and nothing is submitted; otherwise the parsed
packets are submitted to `on_incoming_packets` one at a time in `reversed`
order.  An error escaping the comprehension aborts the callback before any
packet is submitted.  Result: the packets submitted, in submission order. -/
def load_persistent_storage (file : Option (List (List Char))) :
    Except LoadError (List (List Nat)) :=
  match file with
  | none => Except.ok []
  | some lines => (parse_persistent_storage lines).map List.reverse

/-- The submission loop of `_load_persistent_storage`: each
`on_incoming_packets([(candidate, packet)], ...)` call sits in a
`try`/bare-`except`, so a failing packet leaves the state unchanged and the
loop continues with the remaining packets. -/
def process_packets {σ ε : Type} (handler : σ → List Nat → Except ε σ)
    (s : σ) : List (List Nat) → σ
  | [] => s
  | p :: rest =>
    match handler s p with
    | Except.ok s' => process_packets handler s' rest
    | Except.error _ => process_packets handler s rest

/-! ## Embedding of `DebugCommunity.check_text` (`src/debugcommunity.py`) -/

/-- What `check_text` yields for one message: the message itself, or
`DelayMessageByProof(message)`. -/
inductive CheckTextResult (M : Type)
  | accept (m : M)
  | delayMessageByProof (m : M)
deriving DecidableEq, Repr

/-- `DebugCommunity.check_text`: for each message, `allowed, proof =
self._timeline.check(message)`; yield the message when `allowed`, else yield
`DelayMessageByProof(message)`.  `timeline.check` is outside this slice and is
passed as a function returning `(allowed, proofs)`. -/
def check_text {M P : Type} (timelineCheck : M → Bool × P) :
    List M → List (CheckTextResult M)
  | [] => []
  | m :: rest =>
    (if (timelineCheck m).1 then CheckTextResult.accept m
     else CheckTextResult.delayMessageByProof m) :: check_text timelineCheck rest

/-! ## Embedding of `TrackerDispersy.check_introduction_request` -/

/-- A `Message.Implementation` as far as the tracker's bootstrap check looks at
it: whether `message.candidate` is a `BootstrapCandidate`, plus an identity. -/
structure MsgImpl where
  candidateIsBootstrap : Bool
  ident : Nat
deriving DecidableEq, Repr

/-- An item yielded by a `check_*` generator: a `Message.Implementation`, or a
`DropMessage(message, reason)` produced by an earlier check. -/
inductive CheckItem
  | impl (m : MsgImpl)
  | dropMessage (m : MsgImpl) (reason : String)
deriving DecidableEq, Repr

/-- `TrackerDispersy.check_introduction_request`: for each item yielded by the
parent `Dispersy.check_introduction_request` (embedded as the list
`parentItems`), when the item is a `Message.Implementation` whose candidate is
a `BootstrapCandidate`, yield
`DropMessage(message, "drop dispersy-introduction-request from bootstrap peer")`
and continue; otherwise yield the item unchanged. -/
def check_introduction_request : List CheckItem → List CheckItem
  | [] => []
  | item :: rest =>
    (match item with
     | CheckItem.impl m =>
       if m.candidateIsBootstrap then
         CheckItem.dropMessage m "drop dispersy-introduction-request from bootstrap peer"
       else CheckItem.impl m
     | other => other) :: check_introduction_request rest

/-! ## Embedding of the tracker's `silent` flag and its stdout lines -/

/-- The fields printed by the tracker's `REQ_IN2` / `RES_IN2` / `DESTROY_IN` /
`DESTROY_OUT` lines. -/
structure TrackerMsg where
  hexCid : String
  hexMid : String
  dispersyVersion : Nat
  communityVersion : Nat
  host : String
  port : Nat
deriving DecidableEq, Repr

/-- One space-separated stdout line with the given prefix word, as the
`print PREFIX, hex_cid, member..., host, port` statements produce it
(`hex_cid` is taken from the first message of the batch). -/
def trackerLine (head : String) (hexCid : String) (m : TrackerMsg) : String :=
  head ++ " " ++ hexCid ++ " " ++ m.hexMid ++ " " ++ toString m.dispersyVersion
    ++ " " ++ toString m.communityVersion ++ " " ++ m.host ++ " " ++ toString m.port

/-- `TrackerDispersy.on_introduction_request`: prints one `REQ_IN2` line per
message, but only when `not self._silent`. -/
def on_introduction_request_lines (silent : Bool) (messages : List TrackerMsg) :
    List String :=
  if silent then []
  else
    match messages with
    | [] => []
    | m0 :: _ => messages.map (trackerLine "REQ_IN2" m0.hexCid)

/-- `TrackerDispersy.on_introduction_response`: prints one `RES_IN2` line per
message, but only when `not self._silent`. -/
def on_introduction_response_lines (silent : Bool) (messages : List TrackerMsg) :
    List String :=
  if silent then []
  else
    match messages with
    | [] => []
    | m0 :: _ => messages.map (trackerLine "RES_IN2" m0.hexCid)

/-- `TrackerHardKilledCommunity.dispersy_on_introduction_request`: prints one
`DESTROY_OUT` line per message.  The method never consults `self._silent`; the
flag is still passed here so that independence from it is a theorem rather
than a modelling choice. -/
def dispersy_on_introduction_request_lines (_silent : Bool)
    (messages : List TrackerMsg) : List String :=
  match messages with
  | [] => []
  | m0 :: _ => messages.map (trackerLine "DESTROY_OUT" m0.hexCid)

/-- `TrackerCommunity.dispersy_cleanup_community`: prints one `DESTROY_IN` line
for the received `dispersy-destroy-community` message.  The method never
consults `self._silent`; the flag is passed for the same reason as above. -/
def dispersy_cleanup_community_line (_silent : Bool) (hexCid : String)
    (message : TrackerMsg) : List String :=
  [trackerLine "DESTROY_IN" hexCid message]

/-- The callbacks registered by `TrackerDispersy.__init__`. -/
inductive TrackerCallback
  | loadPersistentStorage
  | unloadCommunities
  | reportStatistics
deriving DecidableEq, Repr

/-- The `callback.register` calls of `TrackerDispersy.__init__`:
`_load_persistent_storage` and `_unload_communities` always;
`_report_statistics` only when `not self._silent`. -/
def registered_callbacks (silent : Bool) : List TrackerCallback :=
  [TrackerCallback.loadPersistentStorage, TrackerCallback.unloadCommunities] ++
    (if silent then [] else [TrackerCallback.reportStatistics])

/-! ## Theorems -/

/-- Helper: the values of successive `claim_sequence_number` calls from counter
state `s` are `s+1, s+2, ...`. -/
theorem claim_sequence_list_eq_range' (s n : Nat) :
    claim_sequence_list s n = List.range' (s + 1) n := by
  induction n generalizing s with
  | zero => rfl
  | succ n ih =>
    simp [claim_sequence_list, claim_sequence_number, List.range'_succ, ih]

/-- C2: for `GlobalTimePruning(inactive, pruned)` with `0 < inactive < pruned`
and `d = community.global_time - message.global_time`, `is_active` holds iff
`d < inactive`, `is_inactive` iff `inactive ≤ d < pruned`, `is_pruned` iff
`pruned ≤ d`; exactly one of the three holds, and `get_state` returns exactly
one of `"active"`, `"inactive"`, `"pruned"`. -/
theorem globalTimePruning_state_trichotomy (m : GlobalTimePruningMeta)
    (communityGlobalTime msgGlobalTime : Nat)
    (h0 : 0 < m.inactive_threshold)
    (h1 : m.inactive_threshold < m.prune_threshold) :
    (m.is_active communityGlobalTime msgGlobalTime = true ↔
      (communityGlobalTime : Int) - msgGlobalTime < m.inactive_threshold) ∧
    (m.is_inactive communityGlobalTime msgGlobalTime = true ↔
      m.inactive_threshold ≤ (communityGlobalTime : Int) - msgGlobalTime ∧
        (communityGlobalTime : Int) - msgGlobalTime < m.prune_threshold) ∧
    (m.is_pruned communityGlobalTime msgGlobalTime = true ↔
      m.prune_threshold ≤ (communityGlobalTime : Int) - msgGlobalTime) ∧
    ((m.is_active communityGlobalTime msgGlobalTime).toNat +
      (m.is_inactive communityGlobalTime msgGlobalTime).toNat +
      (m.is_pruned communityGlobalTime msgGlobalTime).toNat = 1) ∧
    m.get_state communityGlobalTime msgGlobalTime =
      some (if (communityGlobalTime : Int) - msgGlobalTime < m.inactive_threshold
        then "active"
        else if (communityGlobalTime : Int) - msgGlobalTime < m.prune_threshold
        then "inactive" else "pruned") := by
  refine ⟨by simp [GlobalTimePruningMeta.is_active], ?_, ?_, ?_, ?_⟩
  · simp [GlobalTimePruningMeta.is_inactive]
  · simp [GlobalTimePruningMeta.is_pruned]
  · simp only [GlobalTimePruningMeta.is_active, GlobalTimePruningMeta.is_inactive,
      GlobalTimePruningMeta.is_pruned]
    by_cases hA : (communityGlobalTime : Int) - msgGlobalTime < m.inactive_threshold <;>
      by_cases hP : m.prune_threshold ≤ (communityGlobalTime : Int) - msgGlobalTime <;>
      simp [hA, hP] <;> omega
  · simp only [GlobalTimePruningMeta.get_state, GlobalTimePruningMeta.is_active,
      GlobalTimePruningMeta.is_inactive, GlobalTimePruningMeta.is_pruned]
    by_cases hA : (communityGlobalTime : Int) - msgGlobalTime < m.inactive_threshold <;>
      by_cases hP : (communityGlobalTime : Int) - msgGlobalTime < m.prune_threshold <;>
      simp [hA, hP]

/-- Witness for C2 at `inactive = 1`, `pruned = 2`, community time 5,
message time 4 (so `d = 1`, state `"inactive"`). -/
theorem globalTimePruning_state_trichotomy_witness :
    (GlobalTimePruningMeta.mk 1 2).get_state 5 4 = some "inactive" := by
  have h := globalTimePruning_state_trichotomy (GlobalTimePruningMeta.mk 1 2) 5 4
    (by decide) (by decide)
  rw [h.2.2.2.2]
  decide

/-- C3: after `setup` initializes the counter to the stored row count, the `n`
successive `claim_sequence_number` values are `count+1, ..., count+n`: each call
increments the counter by one and returns it, the values are consecutive and
strictly increasing, and from an empty store they are exactly `1, 2, ..., n`. -/
theorem claim_sequence_numbers_dense (count n : Nat) :
    (∀ s : Nat, claim_sequence_number s = (s + 1, s + 1)) ∧
    claim_sequence_list (setup_sequence_number count) n =
      List.range' (count + 1) n ∧
    List.Pairwise (· < ·) (claim_sequence_list (setup_sequence_number count) n) ∧
    claim_sequence_list (setup_sequence_number 0) n = List.range' 1 n := by
  refine ⟨fun s => rfl, ?_, ?_, ?_⟩
  · exact claim_sequence_list_eq_range' count n
  · rw [setup_sequence_number, claim_sequence_list_eq_range']
    exact List.pairwise_lt_range' (count + 1) n
  · exact claim_sequence_list_eq_range' 0 n

/-- C5: with `global_time > 0`, constructing a
`FullSyncDistribution.Implementation` fails with `PolicyMismatch` exactly when
`enable_sequence_number` is false and the sequence number is positive or
`enable_sequence_number` is true and the sequence number is 0; otherwise it
succeeds and carries exactly the supplied sequence number. -/
theorem fullSyncImpl_policy_mismatch (enable_sequence_number : Bool)
    (global_time sequence_number : Nat) (hgt : 0 < global_time) :
    (FullSyncImpl.make enable_sequence_number global_time sequence_number =
        Except.error ImplError.policyMismatch ↔
      (enable_sequence_number = false ∧ 0 < sequence_number) ∨
        (enable_sequence_number = true ∧ sequence_number = 0)) ∧
    ((enable_sequence_number = true ∧ 0 < sequence_number) ∨
        (enable_sequence_number = false ∧ sequence_number = 0) →
      FullSyncImpl.make enable_sequence_number global_time sequence_number =
        Except.ok ⟨global_time, sequence_number⟩) := by
  cases enable_sequence_number <;>
    cases sequence_number <;>
      simp [FullSyncImpl.make, hgt]

/-- Witness for C5: `enable_sequence_number = true`, `global_time = 1`,
`sequence_number = 2` constructs successfully with that sequence number. -/
theorem fullSyncImpl_policy_mismatch_witness :
    FullSyncImpl.make true 1 2 = Except.ok ⟨1, 2⟩ :=
  (fullSyncImpl_policy_mismatch true 1 2 (by decide)).2 (Or.inl ⟨rfl, by decide⟩)

/-- Helper: the unloaded part of one `_unload_communities` interval is a
`filterMap` of the per-community check over the loaded communities. -/
theorem unload_communities_interval_fst (cands : List Candidate)
    (batchCache : List Nat) (communities : List TrackerCommunityState) :
    (unload_communities_interval cands batchCache communities).1 =
      communities.filterMap (fun cm =>
        if (loop_is_active cands batchCache cm).1 then none
        else some (loop_is_active cands batchCache cm).2) := by
  simp [unload_communities_interval, List.filterMap_map, Function.comp_def]

/-- Helper: a community is put on the `inactive` list of one interval exactly
when `update_strikes` returned at least 3 and no batch-cache entry belongs to
it; the state it is unloaded with is the `update_strikes`-updated one. -/
theorem loop_is_active_decision (cands : List Candidate) (batchCache : List Nat)
    (c : TrackerCommunityState) :
    (if (loop_is_active cands batchCache c).1 then (none : Option TrackerCommunityState)
      else some (loop_is_active cands batchCache c).2) =
      (if 3 ≤ (update_strikes cands c).1 ∧ ¬ c.cid ∈ batchCache
        then some (update_strikes cands c).2 else none) := by
  simp only [loop_is_active]
  by_cases h1 : (update_strikes cands c).1 < 3
  · have hn : ¬(3 ≤ (update_strikes cands c).1 ∧ ¬ c.cid ∈ batchCache) :=
      fun hcon => absurd hcon.1 (by omega)
    simp [h1, hn]
  · have h1' : 3 ≤ (update_strikes cands c).1 := by omega
    by_cases h2 : c.cid ∈ batchCache
    · have hany : (batchCache.any fun metaCid => metaCid = c.cid) = true := by
        simp only [List.any_eq_true, decide_eq_true_eq]
        exact ⟨c.cid, h2, rfl⟩
      simp [h1, hany, h2]
    · have hany : (batchCache.any fun metaCid => metaCid = c.cid) = false := by
        simp only [List.any_eq_false, decide_eq_true_eq]
        intro x hx e
        exact h2 (e ▸ hx)
      simp [h1, h1', hany, h2]

/-- C1: in the tracker's 180-second unload loop, `TrackerCommunity.update_strikes`
returns 0 (and resets the counter) when some candidate is active for the
community and the incremented counter otherwise, and one interval of
`_unload_communities` unloads exactly the communities whose returned strike
count is at least 3 and for which no batch-cache entry belongs to them. -/
theorem tracker_strike_unload (cands : List Candidate) (batchCache : List Nat)
    (communities : List TrackerCommunityState) (c : TrackerCommunityState)
    (hlive : c.hardKilled = false) :
    ((update_strikes cands c).1 =
      if cands.any (fun cand => c.cid ∈ cand.activeFor) then 0 else c.strikes + 1) ∧
    ((update_strikes cands c).2.strikes = (update_strikes cands c).1) ∧
    (unload_communities_interval cands batchCache communities).1 =
      communities.filterMap (fun cm =>
        if 3 ≤ (update_strikes cands cm).1 ∧ ¬ cm.cid ∈ batchCache
          then some (update_strikes cands cm).2 else none) := by
  refine ⟨?_, ?_, ?_⟩
  · simp only [update_strikes, hlive, Bool.false_eq_true, if_false]
    split <;> rfl
  · simp only [update_strikes, hlive, Bool.false_eq_true, if_false]
    split <;> rfl
  · rw [unload_communities_interval_fst]
    exact List.filterMap_congr fun cm _ => loop_is_active_decision cands batchCache cm

/-- Witness for C1: a live community with strikes 2, no candidates and an empty
batch cache is unloaded with strikes 3. -/
theorem tracker_strike_unload_witness :
    (unload_communities_interval [] []
      [TrackerCommunityState.mk false 7 2]).1 = [TrackerCommunityState.mk false 7 3] := by
  have h := tracker_strike_unload [] [] [TrackerCommunityState.mk false 7 2]
    (TrackerCommunityState.mk false 7 2) rfl
  rw [h.2.2]
  decide

/-- C9: `TrackerHardKilledCommunity.update_strikes` increments unconditionally
(whatever the candidate activity), so from strikes 0 a hard-killed community
survives the first two unload intervals and is judged inactive on the third
whenever no batch-cache entry belongs to it then — whereas a live
`TrackerCommunity` with an active candidate gets strike count 0. -/
theorem hardKilled_update_strikes_never_resets
    (cands cands1 cands2 cands3 : List Candidate) (b1 b2 b3 : List Nat)
    (c : TrackerCommunityState) (hk : c.hardKilled = true) (h0 : c.strikes = 0)
    (hb3 : ¬ c.cid ∈ b3) :
    ((update_strikes cands c).1 = c.strikes + 1) ∧
    ((loop_is_active cands1 b1 c).1 = true ∧
      (loop_is_active cands2 b2 (loop_is_active cands1 b1 c).2).1 = true ∧
      (loop_is_active cands3 b3
        (loop_is_active cands2 b2 (loop_is_active cands1 b1 c).2).2).1 = false) ∧
    (∀ (cands' : List Candidate) (c' : TrackerCommunityState),
      c'.hardKilled = false →
      cands'.any (fun cand => c'.cid ∈ cand.activeFor) = true →
      (update_strikes cands' c').1 = 0) := by
  have hany3 : (b3.any fun metaCid => metaCid = c.cid) = false := by
    simp only [List.any_eq_false, decide_eq_true_eq]
    intro x hx e
    exact hb3 (e ▸ hx)
  refine ⟨by simp [update_strikes, hk], ?_, ?_⟩
  · simp [loop_is_active, update_strikes, hk, h0, hany3]
  · intro cands' c' hlive hact
    simp [update_strikes, hlive, hact]

/-- Witness for C9: a hard-killed community with strikes 0 and an active
candidate still reaches strike count 3 and is judged inactive on the third
interval with an empty batch cache. -/
theorem hardKilled_update_strikes_never_resets_witness :
    (Dispersy.loop_is_active [Candidate.mk [5]] []
      (Dispersy.loop_is_active [Candidate.mk [5]] []
        (Dispersy.loop_is_active [Candidate.mk [5]] []
          (TrackerCommunityState.mk true 5 0)).2).2).1 = false :=
  (hardKilled_update_strikes_never_resets [] [Candidate.mk [5]] [Candidate.mk [5]]
    [Candidate.mk [5]] [] [] [] (TrackerCommunityState.mk true 5 0) rfl rfl
    (by decide)).2.1.2.2

/-- C4: the tracker's `_convert_packets_into_batch` filter never drops a
packet: the `and False` makes the drop condition unsatisfiable, so
`filter_non_bootstrap_nodes` is the identity and every nonempty input list is
passed to the parent implementation unchanged and in order. -/
theorem convert_packets_never_drops {β : Type}
    (parent : List (Nat × List Nat) → List β)
    (communities : List (List Nat)) (packets : List (Nat × List Nat)) :
    filter_non_bootstrap_nodes communities packets = packets ∧
    (packets ≠ [] →
      convert_packets_into_batch parent communities packets = parent packets) ∧
    convert_packets_into_batch parent communities [] = [] := by
  have hfilter : filter_non_bootstrap_nodes communities packets = packets := by
    simp [filter_non_bootstrap_nodes]
  refine ⟨hfilter, ?_, rfl⟩
  intro hne
  rw [convert_packets_into_batch, hfilter]
  simp [hne]

/-- Witness for C4: a one-packet input reaches the parent unchanged. -/
theorem convert_packets_never_drops_witness :
    convert_packets_into_batch id [] [(1, [0, 0, 5])] = [(1, [0, 0, 5])] :=
  (convert_packets_never_drops id [] [(1, [0, 0, 5])]).2.1 (by decide)

/-- C7: `check_text` yields exactly one result per input message, in order: the
message itself when `timeline.check` allows it, and `DelayMessageByProof`
wrapping it otherwise; no message is silently dropped. -/
theorem check_text_per_message_gate {M P : Type} (timelineCheck : M → Bool × P)
    (messages : List M) :
    (check_text timelineCheck messages).length = messages.length ∧
    ∀ i : Nat, (check_text timelineCheck messages)[i]? =
      (messages[i]?).map (fun m =>
        if (timelineCheck m).1 then CheckTextResult.accept m
        else CheckTextResult.delayMessageByProof m) := by
  induction messages with
  | nil => exact ⟨rfl, fun i => by simp [check_text]⟩
  | cons m rest ih =>
    refine ⟨by simp [check_text, ih.1], ?_⟩
    intro i
    cases i with
    | zero => simp [check_text]
    | succ j => simpa [check_text] using ih.2 j

/-- C8: `TrackerDispersy.check_introduction_request` yields, for each item of
the parent generator in order, a `DropMessage` exactly when the item is a
`Message.Implementation` whose candidate is a `BootstrapCandidate`, and the
item unchanged otherwise; count and order are preserved. -/
theorem check_introduction_request_drops_bootstrap (parentItems : List CheckItem) :
    (check_introduction_request parentItems).length = parentItems.length ∧
    ∀ i : Nat, (check_introduction_request parentItems)[i]? =
      (parentItems[i]?).map (fun item =>
        match item with
        | CheckItem.impl m =>
          if m.candidateIsBootstrap then
            CheckItem.dropMessage m
              "drop dispersy-introduction-request from bootstrap peer"
          else CheckItem.impl m
        | CheckItem.dropMessage m reason => CheckItem.dropMessage m reason) := by
  induction parentItems with
  | nil => exact ⟨rfl, fun i => by simp [check_introduction_request]⟩
  | cons item rest ih =>
    refine ⟨by simp [check_introduction_request, ih.1], ?_⟩
    intro i
    cases i with
    | zero => cases item <;> simp [check_introduction_request]
    | succ j => simpa [check_introduction_request] using ih.2 j

/-- C10: with `silent = true` the tracker prints no `REQ_IN2` or `RES_IN2`
lines and never registers the statistics reporter, while the `DESTROY_OUT` and
`DESTROY_IN` code paths print the same lines for every value of the flag. -/
theorem silent_suppresses_only_statistics (m0 : TrackerMsg)
    (messages : List TrackerMsg) (hexCid : String) (message : TrackerMsg) :
    on_introduction_request_lines true (m0 :: messages) = [] ∧
    on_introduction_response_lines true (m0 :: messages) = [] ∧
    ¬ TrackerCallback.reportStatistics ∈ registered_callbacks true ∧
    TrackerCallback.reportStatistics ∈ registered_callbacks false ∧
    (∀ s : Bool, dispersy_on_introduction_request_lines s (m0 :: messages) =
      (m0 :: messages).map (trackerLine "DESTROY_OUT" m0.hexCid)) ∧
    dispersy_on_introduction_request_lines true (m0 :: messages) ≠ [] ∧
    (∀ s : Bool, dispersy_cleanup_community_line s hexCid message =
      [trackerLine "DESTROY_IN" hexCid message]) := by
  refine ⟨rfl, rfl, by decide, by decide, fun s => rfl, ?_, fun s => rfl⟩
  simp [dispersy_on_introduction_request_lines]

/-- Helper: the packet comprehension of `_load_persistent_storage` is the
left-to-right monadic decode of the non-comment lines, aborting at the first
line that fails to unpack or hex-decode. -/
theorem parse_persistent_storage_eq_mapM (lines : List (List Char)) :
    parse_persistent_storage lines =
      (lines.filter (fun l => !startsWithHash l)).mapM decode_storage_line := by
  induction lines with
  | nil => rfl
  | cons line rest ih =>
    by_cases hc : startsWithHash line = true
    · simp [parse_persistent_storage, List.filter_cons, hc, ih]
    · rw [parse_persistent_storage]
      rw [if_neg (by simp [hc]), List.filter_cons, if_pos (by simp [hc]),
        List.mapM_cons]
      rw [decode_storage_line]
      rcases hsplit : pythonSplit line with _ | ⟨f1, _ | ⟨f2, _ | _⟩⟩
      · rfl
      · rfl
      · rcases hdec : hexDecode f2 with _ | p
        · simp only [hdec]
          rfl
        · rw [ih]
          cases hrest : (rest.filter fun l => !startsWithHash l).mapM
              decode_storage_line <;>
            · simp only [hdec, hrest]
              rfl
      · rfl

/-- C6 counterexample: with the file lines `"aa bb"`, `"# c"`, `"n zz"`,
`"m 00"`, the hex-decode failure on `"n zz"` escapes the comprehension (only
`IOError` is caught), so the load aborts and the later well-formed packet
`"m 00"` is never submitted — while without the bad line both packets are
submitted, last line first. -/
theorem load_persistent_storage_decode_error_aborts :
    load_persistent_storage (some
        [['a', 'a', ' ', 'b', 'b'], ['#', ' ', 'c'],
         ['n', ' ', 'z', 'z'], ['m', ' ', '0', '0']]) =
      Except.error LoadError.typeError ∧
    load_persistent_storage (some
        [['a', 'a', ' ', 'b', 'b'], ['#', ' ', 'c'], ['m', ' ', '0', '0']]) =
      Except.ok [[0], [187]] :=
  ⟨rfl, rfl⟩

/-- C6 amended: `_load_persistent_storage` ignores `#` lines, hex-decodes the
second whitespace-separated field of each remaining line, and submits the
packets in reverse file order; a processing error on one packet does not
prevent the remaining packets from being processed, but an unpack or
hex-decode error aborts the whole load before any packet is submitted. -/
theorem load_persistent_storage_reload {σ ε : Type}
    (handler : σ → List Nat → Except ε σ) (s : σ) (e : ε) (p : List Nat)
    (rest : List (List Nat)) (lines : List (List Char)) :
    load_persistent_storage none = Except.ok [] ∧
    load_persistent_storage (some lines) =
      ((lines.filter (fun l => !startsWithHash l)).mapM decode_storage_line).map
        List.reverse ∧
    (handler s p = Except.error e →
      process_packets handler s (p :: rest) = process_packets handler s rest) := by
  refine ⟨rfl, ?_, ?_⟩
  · rw [load_persistent_storage, parse_persistent_storage_eq_mapM]
  · intro he
    simp [process_packets, he]

/-- Witness for the amended C6: a handler that fails on every packet still
lets the loop reach the remaining packets. -/
theorem load_persistent_storage_reload_witness :
    process_packets (fun (_ : Nat) (_ : List Nat) => (Except.error 0 : Except Nat Nat))
        0 [[1], [2]] =
      process_packets (fun (_ : Nat) (_ : List Nat) => (Except.error 0 : Except Nat Nat))
        0 [[2]] :=
  (load_persistent_storage_reload (fun _ _ => Except.error 0) 0 0 [1] [[2]] []).2.2 rfl

end Dispersy
